import Mathlib

/-!
Verification of the repository-analysis Lambda pipeline
(`services/analysis/{handler,file_scorer,github_client,gemini_client}.py`).

The Python modules are shallowly embedded: pure helpers become Lean
functions, the stateful handler becomes explicit state passing in the
`Except PyErr` monad (a thrown Python exception is `Except.error`), and
every collaborator response (GitHub metadata / commit / tree / content
endpoints, the Gemini model replies, the DynamoDB cache table) is an
explicit input, so theorems quantify over all collaborator behaviours.
-/

/-- Python runtime exception: a kind (`NameError`, `KeyError`, ...) plus a
message.  A thrown exception is modelled as `Except.error`. -/
structure PyErr where
  kind : String
  msg : String
deriving Repr, DecidableEq

/-! ### file_scorer.py -/

/-- Priority scores for specific files (`FILE_SCORES` in file_scorer.py,
transcribed in source order; Python dict lookup on distinct keys is
association-list lookup). -/
def FILE_SCORES : List (String × Int) := [
  ("package.json", 100),
  ("requirements.txt", 100),
  ("pyproject.toml", 100),
  ("go.mod", 100),
  ("cargo.toml", 100),
  ("pom.xml", 100),
  ("build.gradle", 100),
  ("gemfile", 95),
  ("composer.json", 95),
  ("readme.md", 95),
  ("readme", 95),
  ("readme.txt", 95),
  ("contributing.md", 60),
  ("changelog.md", 50),
  ("main.py", 90),
  ("app.py", 90),
  ("index.py", 90),
  ("index.js", 90),
  ("index.ts", 90),
  ("index.tsx", 90),
  ("main.js", 90),
  ("main.ts", 90),
  ("app.js", 85),
  ("app.ts", 85),
  ("app.tsx", 85),
  ("main.go", 90),
  ("main.rs", 90),
  ("dockerfile", 70),
  ("docker-compose.yml", 70),
  ("docker-compose.yaml", 70),
  (".env.example", 60),
  ("tsconfig.json", 50),
  ("webpack.config.js", 50),
  ("vite.config.js", 50),
  ("next.config.js", 50)]

/-- Bonus scores for path patterns (`PATH_PATTERNS`).  Each regex is a
plain substring pattern (no metacharacters), matched with `re.search`,
i.e. substring containment. -/
def PATH_PATTERNS : List (String × Int) := [
  ("/routes/", 40),
  ("/api/", 40),
  ("/controllers/", 40),
  ("/handlers/", 35),
  ("/pages/", 35),
  ("/views/", 35),
  ("/components/", 30),
  ("/services/", 30),
  ("/models/", 25),
  ("/src/", 10),
  ("/lib/", 10),
  ("/app/", 10)]

/-- A skip regex from `SKIP_PATTERNS`: every pattern in the source is
either a literal substring (matched anywhere by `re.search`) or a literal
suffix (the pattern ends in `$`); `\.` escapes denote a literal dot. -/
inductive SkipPat where
  | substr (p : String)
  | ending (p : String)
deriving Repr, DecidableEq

/-- Python `str.lower()` (character-wise lowering; all paths handled by
the scorer are treated character by character, as in CPython for ASCII). -/
def pyLower (s : String) : String :=
  String.mk (s.toList.map Char.toLower)

/-- Substring containment on strings, via list infix — Python `pat in s`
and `re.search` of a literal pattern. -/
def strContains (s pat : String) : Bool :=
  decide (pat.toList <:+: s.toList)

/-- Suffix test on strings, via list suffix — Python `s.endswith(pat)`
and `re.search` of a literal pattern anchored with `$`. -/
def strEndsWith (s pat : String) : Bool :=
  decide (pat.toList <:+ s.toList)

/-- Characters after the last `/` of the list: exactly the last element
of Python `s.split('/')` (which is `s` itself when there is no `/`). -/
def afterLastSlash (l : List Char) : List Char :=
  l.foldl (fun acc c => if c = '/' then [] else acc ++ [c]) []

/-- Patterns to skip (`SKIP_PATTERNS`, in source order).  `.woff` has no
trailing `$` in the source and is therefore a substring pattern. -/
def SKIP_PATTERNS : List SkipPat := [
  .substr "node_modules/",
  .substr "vendor/",
  .substr ".git/",
  .substr "dist/",
  .substr "build/",
  .ending ".min.js",
  .ending ".min.css",
  .ending ".map",
  .ending ".lock",
  .ending "package-lock.json",
  .ending "yarn.lock",
  .ending ".png",
  .ending ".jpg",
  .ending ".jpeg",
  .ending ".gif",
  .ending ".svg",
  .ending ".ico",
  .substr ".woff",
  .ending ".ttf",
  .ending ".eot",
  .ending ".mp4",
  .ending ".mp3",
  .ending ".pdf",
  .ending ".zip",
  .ending ".tar",
  .ending ".gz",
  .substr "__pycache__/",
  .ending ".pyc",
  .substr ".test.",
  .substr ".spec.",
  .ending "_test.go"]

/-- Does one skip pattern match the (already lowercased) path? -/
def skipPatMatches (path_lower : String) : SkipPat → Bool
  | .substr p => strContains path_lower p
  | .ending p => strEndsWith path_lower p

/-- `should_skip(path)`: true iff some skip pattern matches the
lowercased path. -/
def should_skip (path : String) : Bool :=
  SKIP_PATTERNS.any (skipPatMatches (pyLower path))

/-- Exact-filename component of the score: the lowercased last `/`
segment (`path_lower.split('/')[-1]`) looked up in `FILE_SCORES`
(0 when absent). -/
def filename_score (path : String) : Int :=
  ((FILE_SCORES.lookup (String.mk (afterLastSlash (pyLower path).toList))).getD 0)

/-- Path-pattern component of the score: the bonus of the first matching
pattern of `PATH_PATTERNS` (the loop breaks after the first match), 0
when none matches. -/
def path_pattern_bonus (path : String) : Int :=
  match PATH_PATTERNS.find? (fun pb => strContains (pyLower path) pb.1) with
  | some pb => pb.2
  | none => 0

/-- Depth component of the score: +5 when the path has at most one `/`. -/
def depth_bonus (path : String) : Int :=
  if path.toList.count '/' ≤ 1 then 5 else 0

/-- `score_file(path, size)` from file_scorer.py: −1 for skipped or
oversized files, otherwise the sum of the three bonus components. -/
def score_file (path : String) (size : Nat) : Int :=
  if should_skip path then -1
  else if size > 500000 then -1
  else filename_score path + path_pattern_bonus path + depth_bonus path

/-- One entry of the GitHub file tree: `{"path": ..., "size": ...}`. -/
structure FileEntry where
  path : String
  size : Nat
deriving Repr, DecidableEq

/-- The scored list built by the first loop of `get_high_value_files`:
`{"path": p, "score": s}` for every input file with score ≥ 0, in input
order. -/
def scoredEntries (files : List FileEntry) : List (String × Int) :=
  files.filterMap (fun f =>
    let s := score_file f.path f.size
    if 0 ≤ s then some (f.path, s) else none)

/-- Comparison used by `scored_files.sort(key=score, reverse=True)`:
descending score.  Python list sort is stable, as is insertion sort. -/
def scoreDesc : (String × Int) → (String × Int) → Prop :=
  fun a b => b.2 ≤ a.2

instance : DecidableRel scoreDesc :=
  fun a b => decidable_of_iff (b.2 ≤ a.2) Iff.rfl

instance : IsTotal (String × Int) scoreDesc :=
  ⟨fun a b => le_total b.2 a.2⟩

instance : IsTrans (String × Int) scoreDesc :=
  ⟨fun _ _ _ hab hbc => le_trans hbc hab⟩

/-- The scored list after the stable descending sort. -/
def sortedScored (files : List FileEntry) : List (String × Int) :=
  (scoredEntries files).insertionSort scoreDesc

/-- `get_high_value_files(files, max_files)`: score, drop negatives,
stable-sort by descending score, return the first `max_files` paths. -/
def get_high_value_files (files : List FileEntry) (max_files : Nat) : List String :=
  (((sortedScored files).take max_files).map (·.1))

-- sanity checks on concrete inputs
example : score_file "readme.md" 10 = 100 := by decide
example : score_file "src/index.js" 100 = 95 := by decide
example : score_file "app/src/index.js" 100 = 100 := by decide
example : score_file "a/b/c.py" 7 = 0 := by decide
example : score_file "assets/logo.png" 3 = -1 := by decide
example : score_file "big.py" 600000 = -1 := by decide
example : score_file "app/__pycache__/m.pyc" 1 = -1 := by decide
example :
    get_high_value_files [⟨"a.py", 10⟩, ⟨"readme.md", 5⟩] 1 = ["readme.md"] := by
  decide

/-! ### github_client.py -/

/-- Error-code table `ERROR_CODE` of github_client.py. -/
def ERROR_CODE : List (Int × String) := [
  (404, "REPO_NOT_FOUND"),
  (401, "GITHUB_TOKEN_INVALID"),
  (403, "RATE_LIMIT_EXCEEDED"),
  (409, "EMPTY_GITHUB_REPO"),
  (503, "SERVICE_UNAVAILABLE"),
  (500, "INTERNAL_SERVER_ERROR")]

/-- Standardized response of `create_response`: `statusCode` plus a body
holding `error_code` (failures) or `data` (successes).  `data` is an
`Option` because the body carries the key only on the success branch. -/
structure GHResponse (α : Type) where
  statusCode : Int
  errorCode : Option String
  data : Option α
deriving Repr, DecidableEq

/-- `create_response(status_code, data, error_code)`: on `status_code ≥ 400`
the body gets `error_code` (the argument, or the `ERROR_CODE` table entry,
or `UNKNOWN_ERROR`); otherwise the body gets `data`. -/
def create_response (α : Type) (status_code : Int) (data : Option α)
    (error_code : Option String) : GHResponse α :=
  if 400 ≤ status_code then
    ⟨status_code, some (error_code.getD ((ERROR_CODE.lookup status_code).getD "UNKNOWN_ERROR")), none⟩
  else
    ⟨status_code, none, data⟩

/-- Metadata payload assembled by `get_repo_metadata` (all fields read
with `.get`, hence optional). -/
structure RepoMetadata where
  name : Option String
  description : Option String
  stars : Option Int
  topics : List String
  default_branch : Option String
  language : Option String
  html_url : Option String
deriving Repr, DecidableEq

/-- Payload of `get_latest_commit_sha` on success: the dict
`{"latest_commit_sha": sha}` (github_client.py line 205-207), modelled as
an association list so that key errors are observable. -/
def get_latest_commit_sha_ok (sha : String) : GHResponse (List (String × String)) :=
  create_response _ 200 (some [("latest_commit_sha", sha)]) none

/-- Tree payload assembled by `get_file_tree` on success. -/
structure TreeData where
  files : List FileEntry
  truncated : Bool
  file_count : Nat
deriving Repr, DecidableEq

/-- Content payload assembled by `get_file_content` on success
(`content` is `None` exactly when the file was skipped). -/
structure FileContentData where
  path : String
  content : Option String
  size : Nat
  skipped : Bool
  reason : Option String
deriving Repr, DecidableEq

/-- Default `max_size` of `get_file_content` (100,000 characters). -/
def GET_FILE_CONTENT_DEFAULT_MAX_SIZE : Nat := 100000

/-- `get_file_content(owner, repo, path, max_size)` as a function of the
HTTP outcome for the file: given the upstream status and raw text, build
the standardized response.  Content longer than `max_size` yields a 200
response with `skipped = true`, `reason = FILE_TOO_LARGE` and no content;
otherwise a 200 response carrying the text.  Non-200 upstream statuses
are passed to `create_response` unchanged. -/
def get_file_content (path : String) (httpStatus : Int) (text : String)
    (max_size : Nat) : GHResponse FileContentData :=
  if httpStatus ≠ 200 then
    create_response _ httpStatus none none
  else if text.length > max_size then
    create_response _ 200 (some ⟨path, none, text.length, true, some "FILE_TOO_LARGE"⟩) none
  else
    create_response _ 200 (some ⟨path, some text, text.length, false, none⟩) none

/-! ### gemini_client.py -/

/-- `select_important_files(files, max_files)` as a function of the parsed
model reply.  `rawReply = none` models every failure path (missing API
key, request error, unparsable JSON), all of which return `[]`.  On a
parsed reply, the function keeps exactly the entries that occur in
`file_tree`, the list of non-empty paths of the input files
(gemini_client.py lines 243 and 291). -/
def select_important_files (files : List FileEntry) (rawReply : Option (List String)) : List String :=
  match rawReply with
  | none => []
  | some fs =>
    let file_tree := (files.map (·.path)).filter (fun p => p ≠ "")
    fs.filter (fun f => file_tree.contains f)

/-- Suggestions payload of `generate_suggestions` on success.  The JSON
array of suggestion objects is modelled opaquely as a list of strings
(the pipeline never inspects individual suggestions). -/
structure SuggestionsData where
  suggestions : List String
  suggestion_count : Nat
deriving Repr, DecidableEq

/-! ### handler.py: cache helpers -/

/-- The analysis object assembled in STEP 9 of the handler. -/
structure Analysis where
  repo_name : Option String
  description : Option String
  language : Option String
  stars : Option Int
  topics : List String
  html_url : Option String
  default_branch : String
  file_count : Nat
  files_analyzed : List String
  selection_method : String
deriving Repr, DecidableEq

/-- One cached item: the analysis and suggestions stored by
`save_to_cache` (timestamps and TTL are not modelled). -/
structure CacheItem where
  analysis : Analysis
  suggestions : List String
deriving Repr, DecidableEq

/-- The DynamoDB cache table: items addressed by the exact composite key
`(repo_url, commit_sha)`. -/
def Cache : Type := List ((String × String) × CacheItem)

/-- Number of days after which a cached entry expires (`CACHE_TTL_DAYS`). -/
def CACHE_TTL_DAYS : Nat := 7

/-- Minimum number of files for the hybrid approach (`MIN_FILES_THRESHOLD`). -/
def MIN_FILES_THRESHOLD : Nat := 5

/-- `get_from_cache(cache_key, commit_sha)`: exact composite-key lookup;
`None` on a miss (and on a lookup error, which is not modelled). -/
def get_from_cache (cache : Cache) (cache_key : String) (commit_sha : String) : Option CacheItem :=
  List.lookup (cache_key, commit_sha) cache

/-- `save_to_cache(cache_key, commit_sha, analysis, suggestions)`:
`put_item` overwrites the item with the same composite key; the newest
binding shadows older ones under `List.lookup`. -/
def save_to_cache (cache : Cache) (cache_key : String) (commit_sha : String)
    (analysis : Analysis) (suggestions : List String) : Cache :=
  ((cache_key, commit_sha), ⟨analysis, suggestions⟩) :: cache

/-! ### handler.py: the pipeline -/

/-- The Lambda input event; `event.get('github_url', None)`. -/
structure Event where
  github_url : Option String
deriving Repr, DecidableEq

/-- What the handler hands back when it returns (rather than raises):
either an error dict `{statusCode, body: {error_code}}` (its own errors
and collaborator responses passed through unchanged), or the result
payload `{analysis, suggestions, from_cache}`. -/
inductive HandlerOutcome where
  | errorResponse (statusCode : Int) (error_code : String)
  | result (analysis : Analysis) (suggestions : List String) (from_cache : Bool)
deriving Repr, DecidableEq

/-- A collaborator error response returned by the handler verbatim
(`return metadata_response` etc.).  For responses built by
`create_response` with status ≥ 400 the error code is always present;
the `UNKNOWN_ERROR` default is never exercised by those. -/
def passthrough (α : Type) (r : GHResponse α) : HandlerOutcome :=
  .errorResponse r.statusCode (r.errorCode.getD "UNKNOWN_ERROR")

/-- Subscript access `response["body"]["data"]`: a `KeyError` when the
body has no `data` key. -/
def requireData (α : Type) (r : GHResponse α) : Except PyErr α :=
  match r.data with
  | some d => pure d
  | none => Except.error ⟨"KeyError", "data"⟩

/-- All collaborator behaviour the handler can observe, as explicit
inputs: the four service responses, the parsed Gemini file-selection
reply, and the cache-table state. -/
structure HandlerEnv where
  metadataResponse : GHResponse RepoMetadata
  commitResponse : GHResponse (List (String × String))
  treeResponse : GHResponse TreeData
  aiReply : Option (List String)
  geminiResponse : GHResponse SuggestionsData
  cache : Cache

/-- Line 124 of handler.py: `logger.loggin(...)`.  `Logger` has no
attribute `loggin` (the method is `logger.info`), so the statement
raises `AttributeError` before anything else happens. -/
def logger_loggin : Except PyErr Unit :=
  Except.error ⟨"AttributeError", "Logger object has no attribute loggin"⟩

/-- `parse_github_url(github_url)`: its first statement is
`url = url.rstrip('/')`, which reads the local variable `url` before any
assignment to it — the parameter is named `github_url` — so the function
unconditionally raises `UnboundLocalError`; the remaining lines are
unreachable. -/
def parse_github_url (github_url : String) : Except PyErr (String × String) :=
  Except.error ⟨"UnboundLocalError", "local variable url referenced before assignment"⟩

/-- Line 138 of handler.py: the cache lookup key
`f"{owner.lower()}/{repo.lower()}"`. -/
def handler_cache_key (owner repo : String) : String :=
  pyLower owner ++ "/" ++ pyLower repo

/-- STEP 3 (lines 164-172): on a non-200 commit response the sha becomes
`None` (non-fatal, caching disabled); on a 200 response the handler reads
`commit_response["body"]["data"]["sha"]`. -/
def resolve_commit_sha (commitResponse : GHResponse (List (String × String))) :
    Except PyErr (Option String) :=
  if commitResponse.statusCode ≠ 200 then pure none
  else do
    let d ← requireData _ commitResponse
    match List.lookup "sha" d with
    | some v => pure (some v)
    | none => Except.error ⟨"KeyError", "sha"⟩

/-- STEP 4 (lines 178-187): the cache is consulted only when `commit_sha`
is truthy; the Bool records whether a lookup was performed. -/
def cache_check (cache : Cache) (cache_key : String) (commit_sha : Option String) :
    Option CacheItem × Bool :=
  match commit_sha with
  | some sha => if sha ≠ "" then (get_from_cache cache cache_key sha, true) else (none, false)
  | none => (none, false)

/-- STEP 10 (lines 313-314): the write happens only when `commit_sha` is
truthy; the handler passes `github_url` — not `cache_key` — as the first
argument of `save_to_cache`.  The Bool records whether a write was
performed. -/
def cache_write (cache : Cache) (github_url : String) (commit_sha : Option String)
    (analysis : Analysis) (suggestions : List String) : Cache × Bool :=
  match commit_sha with
  | some sha =>
    if sha ≠ "" then (save_to_cache cache github_url sha analysis suggestions, true)
    else (cache, false)
  | none => (cache, false)

/-- Python `list(set(xs))`: duplicates removed; CPython set iteration
order is unspecified, so only membership facts are relied upon and the
model fixes one concrete enumeration. -/
def pySet (l : List String) : List String :=
  l.dedup

/-- Lines 211-229 of handler.py (the hybrid selector): rule-based
selection, then — only when it has fewer than `MIN_FILES_THRESHOLD`
entries — the AI selection is requested and merged when it adds files.
Returns the selection, the method, and whether the AI selector was
invoked. -/
def hybrid_select (all_files : List FileEntry) (ai_selected : List String) :
    List String × String × Bool :=
  let high_value_files := get_high_value_files all_files 10
  if high_value_files.length < MIN_FILES_THRESHOLD then
    if ai_selected ≠ [] then
      let combined := (pySet (high_value_files ++ ai_selected)).take 10
      if combined.length > high_value_files.length then (combined, "hybrid", true)
      else (high_value_files, "rule-based", true)
    else (high_value_files, "rule-based", true)
  else (high_value_files, "rule-based", false)

/-- The fixed fallback extension set (line 233). -/
def FALLBACK_EXTENSIONS : List String :=
  [".py", ".js", ".ts", ".java", ".go", ".rs", ".cpp", ".c"]

/-- Lines 211-248 of handler.py (STEP 6): hybrid selection followed by
the fallback block.  `fallback_files` is assigned only inside the
`len(high_value_files) == 0 and file_count > 0` branch, yet line 239
tests `if fallback_files:` unconditionally, so whenever the hybrid
selection is non-empty the stage raises `UnboundLocalError`. -/
def select_files (all_files : List FileEntry) (file_count : Nat) (ai_selected : List String) :
    Except PyErr (HandlerOutcome ⊕ (List String × String × Bool)) :=
  let hv := hybrid_select all_files ai_selected
  let fallback_assigned : Option (List String) :=
    if hv.1.length = 0 ∧ file_count > 0 then
      some (((all_files.filter
        (fun f => FALLBACK_EXTENSIONS.any (fun ext => strEndsWith f.path ext))).map (·.path)).take 5)
    else none
  match fallback_assigned with
  | none => Except.error ⟨"UnboundLocalError", "local variable fallback_files referenced before assignment"⟩
  | some fallback_files =>
    let sel := if fallback_files ≠ [] then (fallback_files, "fallback") else (hv.1, hv.2.1)
    if sel.1.length = 0 then pure (Sum.inl (.errorResponse 400 "NO_ANALYZABLE_FILES"))
    else pure (Sum.inr (sel.1, sel.2, hv.2.2))

/-- Line 256 of handler.py: the call
`get_file_content(owner=owner, repo=repo, file_path=file_path)`.
`get_file_content` has no parameter named `file_path` (its parameter is
`path`), so every call raises `TypeError` before any request is made. -/
def call_get_file_content (owner repo file_path : String) :
    Except PyErr (GHResponse FileContentData) :=
  Except.error ⟨"TypeError", "get_file_content() got an unexpected keyword argument file_path"⟩

/-- Python dict assignment `d[k] = v`: update in place when the key
exists, else append. -/
def pyDictSet {α : Type} (d : List (String × α)) (k : String) (v : α) :
    List (String × α) :=
  if (List.lookup k d).isSome then
    d.map (fun kv => if kv.1 = k then (k, v) else kv)
  else d ++ [(k, v)]

/-- Lines 258-264 of handler.py: how one content response updates the
`file_contents` dict — stored only when the status is 200 and the data
is not marked skipped; error responses and skipped files leave the dict
unchanged. -/
def process_content_response (file_contents : List (String × Option String))
    (file_path : String) (resp : GHResponse FileContentData) :
    Except PyErr (List (String × Option String)) :=
  if resp.statusCode = 200 then do
    let d ← requireData _ resp
    if ¬ d.skipped then pure (pyDictSet file_contents file_path d.content)
    else pure file_contents
  else pure file_contents

/-- Lines 253-274 of handler.py (STEP 7): fetch every selected file in
order, then fail with `NO_FILE_CONTENT_FETCHED` when the dict stayed
empty.  Each iteration starts with `call_get_file_content`, which raises
`TypeError` (see its doc). -/
def fetch_stage (owner repo : String) (paths : List String) :
    Except PyErr (HandlerOutcome ⊕ List (String × Option String)) := do
  let file_contents ← paths.foldlM (fun acc file_path => do
    let content_response ← call_get_file_content owner repo file_path
    process_content_response acc file_path content_response) []
  if file_contents.length = 0 then
    pure (Sum.inl (.errorResponse 400 "NO_FILE_CONTENT_FETCHED"))
  else pure (Sum.inr file_contents)

/-- The Lambda `handler(event, context)`, over explicit collaborator
behaviour.  It starts with `logger.loggin(...)` (line 124) and composes
the stage functions above; the cache write of STEP 10 mutates only the
external table, which the return value does not expose. -/
def handler (event : Event) (env : HandlerEnv) : Except PyErr HandlerOutcome := do
  logger_loggin
  let github_url := event.github_url.getD ""
  if github_url = "" then
    return .errorResponse 400 "MISSING_GITHUB_URL"
  let parsed ← parse_github_url github_url
  let owner := parsed.1
  let repo := parsed.2
  let cache_key := handler_cache_key owner repo
  if owner = "" ∨ repo = "" then
    return .errorResponse 400 "INVALID_GITHUB_URL"
  if env.metadataResponse.statusCode ≠ 200 then
    return passthrough _ env.metadataResponse
  let metadata ← requireData _ env.metadataResponse
  let default_branch := metadata.default_branch.getD "main"
  let commit_sha ← resolve_commit_sha env.commitResponse
  match (cache_check env.cache cache_key commit_sha).1 with
  | some item => return .result item.analysis item.suggestions true
  | none => pure ()
  if env.treeResponse.statusCode ≠ 200 then
    return passthrough _ env.treeResponse
  let tree ← requireData _ env.treeResponse
  let all_files := tree.files
  let file_count := tree.file_count
  if file_count = 0 then
    return .errorResponse 400 "EMPTY_REPOSITORY"
  let sel ← select_files all_files file_count (select_important_files all_files env.aiReply)
  match sel with
  | Sum.inl out => return out
  | Sum.inr selection => do
    let fetched ← fetch_stage owner repo selection.1
    match fetched with
    | Sum.inl out => return out
    | Sum.inr file_contents => do
      if env.geminiResponse.statusCode ≠ 200 then
        return passthrough _ env.geminiResponse
      let gem ← requireData _ env.geminiResponse
      let suggestions := gem.suggestions
      let analysis : Analysis :=
        ⟨metadata.name, metadata.description, metadata.language, metadata.stars,
         metadata.topics, metadata.html_url, default_branch, file_count,
         file_contents.map (·.1), selection.2.1⟩
      let _ := cache_write env.cache github_url commit_sha analysis suggestions
      return .result analysis suggestions false

/-! ### Helper lemmas -/

/-- Looking a key up in an association list of nonnegative values and
defaulting to 0 yields a nonnegative value. -/
theorem lookup_getD_nonneg (kvs : List (String × Int))
    (h : ∀ kv ∈ kvs, 0 ≤ kv.2) (k : String) : 0 ≤ ((kvs.lookup k).getD 0) := by
  induction kvs with
  | nil => simp [List.lookup]
  | cons a l ih =>
    obtain ⟨ka, va⟩ := a
    by_cases hk : (k == ka) = true
    · simp [List.lookup, hk]
      exact h (ka, va) (List.mem_cons_self _ _)
    · simp [List.lookup, hk]
      exact ih fun kv hkv => h kv (List.mem_cons_of_mem _ hkv)

theorem filename_score_nonneg (path : String) : 0 ≤ filename_score path := by
  unfold filename_score
  exact lookup_getD_nonneg _ (by decide) _

theorem path_pattern_bonus_nonneg (path : String) : 0 ≤ path_pattern_bonus path := by
  unfold path_pattern_bonus
  cases hfind : PATH_PATTERNS.find? (fun pb => strContains (pyLower path) pb.1) with
  | none => simp
  | some pb =>
    have hmem := List.mem_of_find?_eq_some hfind
    have hall : ∀ kv ∈ PATH_PATTERNS, 0 ≤ kv.2 := by decide
    simpa using hall pb hmem

theorem depth_bonus_nonneg (path : String) : 0 ≤ depth_bonus path := by
  unfold depth_bonus
  split <;> norm_num

theorem score_components_nonneg (path : String) :
    0 ≤ filename_score path + path_pattern_bonus path + depth_bonus path :=
  add_nonneg (add_nonneg (filename_score_nonneg path) (path_pattern_bonus_nonneg path))
    (depth_bonus_nonneg path)

theorem mem_scoredEntries {files : List FileEntry} {e : String × Int}
    (h : e ∈ scoredEntries files) :
    ∃ f ∈ files, e = (f.path, score_file f.path f.size) ∧ 0 ≤ score_file f.path f.size := by
  unfold scoredEntries at h
  rw [List.mem_filterMap] at h
  obtain ⟨f, hf, hfe⟩ := h
  by_cases hs : 0 ≤ score_file f.path f.size
  · refine ⟨f, hf, ?_, hs⟩
    simp only [hs, if_pos] at hfe
    exact (Option.some.inj hfe).symm
  · simp [hs] at hfe

theorem mem_get_high_value_files {files : List FileEntry} {n : Nat} {p : String}
    (h : p ∈ get_high_value_files files n) :
    ∃ f ∈ files, p = f.path ∧ 0 ≤ score_file f.path f.size := by
  unfold get_high_value_files at h
  rw [List.mem_map] at h
  obtain ⟨e, he, hep⟩ := h
  have he2 : e ∈ sortedScored files := List.mem_of_mem_take he
  have he3 : e ∈ scoredEntries files :=
    (List.perm_insertionSort scoreDesc (scoredEntries files)).mem_iff.mp he2
  obtain ⟨f, hf, hef, hs⟩ := mem_scoredEntries he3
  exact ⟨f, hf, by rw [← hep, hef], hs⟩

/-- Stability of the descending stable sort: for each score value, the
subsequence of entries carrying that score is unchanged by the sort. -/
theorem insertionSort_scoreDesc_filter (l : List (String × Int)) (s : Int) :
    (l.insertionSort scoreDesc).filter (fun e => e.2 == s) =
      l.filter (fun e => e.2 == s) := by
  have hpair : (l.filter (fun e => e.2 == s)).Pairwise scoreDesc := by
    apply List.pairwise_of_forall_mem_list
    intro a ha b hb
    have ha2 := (List.mem_filter.mp ha).2
    have hb2 := (List.mem_filter.mp hb).2
    simp only [beq_iff_eq] at ha2 hb2
    simp [scoreDesc, ha2, hb2]
  have hsub : List.Sublist (l.filter (fun e => e.2 == s)) l := List.filter_sublist l
  have h1 : List.Sublist (l.filter (fun e => e.2 == s)) (l.insertionSort scoreDesc) :=
    List.sublist_insertionSort hpair hsub
  have h2 := h1.filter (fun e => e.2 == s)
  have h3 : ((l.filter (fun e => e.2 == s)).filter (fun e => e.2 == s)) =
      l.filter (fun e => e.2 == s) := by
    apply List.filter_eq_self.mpr
    intro a ha
    exact (List.mem_filter.mp ha).2
  rw [h3] at h2
  have hperm : ((l.insertionSort scoreDesc).filter (fun e => e.2 == s)).Perm
      (l.filter (fun e => e.2 == s)) :=
    (List.perm_insertionSort scoreDesc l).filter _
  exact (h2.eq_of_length hperm.length_eq.symm).symm

theorem select_important_files_subset {files : List FileEntry} {raw : List String} :
    ∀ p ∈ select_important_files files (some raw), p ∈ files.map (·.path) := by
  intro p hp
  simp only [select_important_files, List.mem_filter] at hp
  obtain ⟨hpraw, hpc⟩ := hp
  have hmem : p ∈ (files.map (·.path)).filter (fun q => q ≠ "") := by
    simpa using hpc
  exact List.mem_of_mem_filter hmem

theorem mem_hybrid_select {files : List FileEntry} {ai : List String} {p : String}
    (hp : p ∈ (hybrid_select files ai).1) :
    p ∈ get_high_value_files files 10 ∨ p ∈ ai := by
  simp only [hybrid_select] at hp
  repeat' split at hp
  case isTrue =>
    have h4 := List.mem_of_mem_take hp
    simp only [pySet, List.mem_dedup] at h4
    exact List.mem_append.mp h4
  all_goals exact Or.inl hp

/-! ### Claim theorems -/

/-- C1: the claim says every invocation of the handler returns a
structured result dictionary and never raises.  The code violates this:
the very first statement of the handler body, `logger.loggin(...)`
(handler.py line 124), raises `AttributeError` on every event and every
collaborator behaviour — and `parse_github_url` would raise
`UnboundLocalError` on its unbound local `url` even if the logging call
were fixed.  This theorem evaluates the handler on all inputs. -/
theorem handler_raises_on_every_event (event : Event) (env : HandlerEnv) :
    handler event env =
      Except.error ⟨"AttributeError", "Logger object has no attribute loggin"⟩ := rfl

/-- Sample analysis value used to exercise the cache helpers. -/
def sampleAnalysis : Analysis :=
  ⟨some "react", none, some "JavaScript", some 1000, [], some "https://github.com/Owner/Repo",
   "main", 1, ["index.js"], "rule-based"⟩

/-- C2: the claim says cache write and cache lookup use the same
composite key (normalized lowercase owner/name, commitId).  The code
violates this: STEP 4 looks up under `cache_key` (line 138,
`owner.lower()/repo.lower()`) while STEP 10 writes under the raw
`github_url` (line 314), so for the URL form of the key a lookup
immediately after a successful write misses. -/
theorem cache_write_lookup_key_mismatch :
    handler_cache_key "Owner" "Repo" ≠ "https://github.com/Owner/Repo" ∧
    (cache_write [] "https://github.com/Owner/Repo" (some "abc123") sampleAnalysis ["clip1"]).2 = true ∧
    (cache_check
        (cache_write [] "https://github.com/Owner/Repo" (some "abc123") sampleAnalysis ["clip1"]).1
        (handler_cache_key "Owner" "Repo") (some "abc123")).1 = none := by
  refine ⟨by decide, rfl, by decide⟩

/-- C3: the claim says a failed commit resolution disables caching
(non-fatally) and a successful one has its sha extracted and used as the
cache key component.  The failure half holds (a non-200 commit response
yields `commit_sha = None`, no cache read, no cache write), but the
success half crashes: `get_latest_commit_sha` stores the sha under
`latest_commit_sha` (github_client.py line 206) while the handler reads
`["sha"]` (handler.py line 171), raising `KeyError`. -/
theorem commit_sha_extraction_key_error :
    (∀ sha : String, resolve_commit_sha (get_latest_commit_sha_ok sha) =
      Except.error ⟨"KeyError", "sha"⟩) ∧
    resolve_commit_sha (create_response (List (String × String)) 503 none (some "REQUEST_TIMEOUT")) =
      Except.ok none ∧
    (∀ (cache : Cache) (cache_key : String), cache_check cache cache_key none = (none, false)) ∧
    (∀ (cache : Cache) (github_url : String) (a : Analysis) (s : List String),
      cache_write cache github_url none a s = (cache, false)) :=
  ⟨fun _ => rfl, rfl, fun _ _ => rfl, fun _ _ _ _ => rfl⟩

/-- C4: the claim says a non-empty rule-based or hybrid selection is
returned unchanged and the fallback runs only on an empty selection.  The
code violates the first part: `fallback_files` is assigned only inside
the empty-selection branch (handler.py lines 232-237), yet line 239 tests
`if fallback_files:` unconditionally, so a non-empty selection raises
`UnboundLocalError`.  The empty-selection paths do behave as claimed:
extension fallback (up to 5 files, tree order, method `fallback`) and
`NO_ANALYZABLE_FILES` when even the fallback finds nothing. -/
theorem selection_fallback_unbound_local :
    select_files [⟨"readme.md", 10⟩] 1 [] =
      Except.error ⟨"UnboundLocalError", "local variable fallback_files referenced before assignment"⟩ ∧
    select_files [⟨"big.py", 600000⟩] 1 [] =
      Except.ok (Sum.inr (["big.py"], "fallback", true)) ∧
    select_files [⟨"logo.png", 10⟩] 1 [] =
      Except.ok (Sum.inl (.errorResponse 400 "NO_ANALYZABLE_FILES")) := by
  refine ⟨rfl, rfl, rfl⟩

/-- C5: `score_file` returns −1 exactly on skip-rule matches or sizes
over 500,000 (skip rules and the size cap taking precedence over every
bonus), and otherwise a nonnegative score that is the sum of the
filename-table component, the first-matching path-pattern bonus and the
shallow-path bonus. -/
theorem score_file_spec (path : String) (size : Nat) :
    (score_file path size = -1 ↔ (should_skip path = true ∨ 500000 < size)) ∧
    (should_skip path = false → size ≤ 500000 →
      score_file path size =
        filename_score path + path_pattern_bonus path + depth_bonus path ∧
      0 ≤ score_file path size) := by
  have hsum := score_components_nonneg path
  constructor
  · constructor
    · intro h
      by_contra hcon
      push_neg at hcon
      obtain ⟨h1, h2⟩ := hcon
      replace h1 : should_skip path = false := by
        cases hskip : should_skip path
        · rfl
        · exact absurd hskip h1
      unfold score_file at h
      rw [h1] at h
      simp only [Bool.false_eq_true, if_false] at h
      rw [if_neg (by omega)] at h
      omega
    · intro h
      unfold score_file
      rcases h with h | h
      · rw [if_pos h]
      · by_cases hskip : should_skip path = true
        · rw [if_pos hskip]
        · rw [if_neg hskip, if_pos (by omega)]
  · intro h1 h2
    unfold score_file
    rw [h1]
    simp only [Bool.false_eq_true, if_false]
    rw [if_neg (by omega)]
    exact ⟨rfl, hsum⟩

/-- Witness for C5 at the concrete input `("src/index.js", 100)`. -/
theorem score_file_spec_witness :
    should_skip "src/index.js" = false ∧ (100 : Nat) ≤ 500000 ∧
    (score_file "src/index.js" 100 =
      filename_score "src/index.js" + path_pattern_bonus "src/index.js" +
        depth_bonus "src/index.js" ∧
      0 ≤ score_file "src/index.js" 100) :=
  ⟨by decide, by decide, (score_file_spec "src/index.js" 100).2 (by decide) (by decide)⟩

/-- C6: `get_high_value_files` returns at most `max_files` paths, each
coming from an input file whose score is nonnegative; the scored list is
sorted by descending score, the sort preserves the original relative
order among equal scores (stability), and the output is exactly the
first `max_files` paths of that list.  The function is a pure Lean
function, hence deterministic and free of I/O. -/
theorem get_high_value_files_spec (files : List FileEntry) (max_files : Nat) :
    (get_high_value_files files max_files).length ≤ max_files ∧
    (∀ p ∈ get_high_value_files files max_files,
      ∃ f ∈ files, p = f.path ∧ 0 ≤ score_file f.path f.size) ∧
    (sortedScored files).Sorted scoreDesc ∧
    (∀ s : Int, (sortedScored files).filter (fun e => e.2 == s) =
      (scoredEntries files).filter (fun e => e.2 == s)) ∧
    get_high_value_files files max_files =
      ((sortedScored files).take max_files).map (·.1) := by
  refine ⟨?_, fun p hp => mem_get_high_value_files hp, ?_,
    fun s => insertionSort_scoreDesc_filter _ s, rfl⟩
  · unfold get_high_value_files
    rw [List.length_map]
    exact List.length_take_le _ _
  · unfold sortedScored
    exact List.sorted_insertionSort _ _

/-- Witness for C6 on a concrete two-file tree. -/
theorem get_high_value_files_spec_witness :
    "readme.md" ∈ get_high_value_files [⟨"a.py", 10⟩, ⟨"readme.md", 5⟩] 1 ∧
    ∃ f ∈ [FileEntry.mk "a.py" 10, FileEntry.mk "readme.md" 5],
      "readme.md" = f.path ∧ 0 ≤ score_file f.path f.size :=
  ⟨by decide,
   (get_high_value_files_spec [⟨"a.py", 10⟩, ⟨"readme.md", 5⟩] 1).2.1 "readme.md" (by decide)⟩

/-- C7: when the rule-based selection already has at least
`MIN_FILES_THRESHOLD` (5) paths, the hybrid selector returns it
unchanged with method `rule-based`, and the AI selector is never invoked
(the Bool component records whether `select_important_files` was
called). -/
theorem hybrid_select_rule_based (all_files : List FileEntry) (ai_selected : List String)
    (h : MIN_FILES_THRESHOLD ≤ (get_high_value_files all_files 10).length) :
    hybrid_select all_files ai_selected =
      (get_high_value_files all_files 10, "rule-based", false) := by
  unfold hybrid_select
  rw [if_neg (Nat.not_lt.mpr h)]

/-- Five manifest files, each scored by the rule-based scorer. -/
def fiveManifests : List FileEntry :=
  [⟨"package.json", 1⟩, ⟨"requirements.txt", 1⟩, ⟨"go.mod", 1⟩,
   ⟨"main.py", 1⟩, ⟨"readme.md", 1⟩]

/-- Witness for C7: five rule-based hits, so the AI reply is ignored. -/
theorem hybrid_select_rule_based_witness :
    MIN_FILES_THRESHOLD ≤ (get_high_value_files fiveManifests 10).length ∧
    hybrid_select fiveManifests ["ghost.py"] =
      (get_high_value_files fiveManifests 10, "rule-based", false) :=
  ⟨by decide, hybrid_select_rule_based fiveManifests ["ghost.py"] (by decide)⟩

/-- C8: when the AI selector is consulted (rule-based selection smaller
than 5), every reply path absent from the tree is discarded by
`select_important_files` before merging, and every path of the final
hybrid selection exists in the tree. -/
theorem ai_selection_filtered_to_tree (files : List FileEntry) (raw : List String)
    (h : (get_high_value_files files 10).length < MIN_FILES_THRESHOLD) :
    (∀ p ∈ raw, p ∉ files.map (·.path) → p ∉ select_important_files files (some raw)) ∧
    (∀ p ∈ select_important_files files (some raw), p ∈ files.map (·.path)) ∧
    (∀ p ∈ (hybrid_select files (select_important_files files (some raw))).1,
      p ∈ files.map (·.path)) := by
  refine ⟨?_, select_important_files_subset, ?_⟩
  · intro p hpraw hnot hmem
    exact hnot (select_important_files_subset p hmem)
  · intro p hp
    rcases mem_hybrid_select hp with hcase | hcase
    · obtain ⟨f, hf, rfl, _⟩ := mem_get_high_value_files hcase
      exact List.mem_map_of_mem _ hf
    · exact select_important_files_subset p hcase

/-- Witness for C8: a hallucinated reply path is dropped. -/
theorem ai_selection_filtered_to_tree_witness :
    (get_high_value_files [⟨"a.py", 10⟩] 10).length < MIN_FILES_THRESHOLD ∧
    "ghost.py" ∉ select_important_files [⟨"a.py", 10⟩] (some ["a.py", "ghost.py"]) :=
  ⟨by decide,
   (ai_selection_filtered_to_tree [⟨"a.py", 10⟩] ["a.py", "ghost.py"] (by decide)).1
     "ghost.py" (by decide) (by decide)⟩

/-- C9: the claim says per-file fetch failures are non-terminal and
`NO_FILE_CONTENT_FETCHED` is returned exactly on an empty content map.
The code violates this: the call on handler.py line 256 passes the
keyword `file_path` but `get_file_content` has no such parameter, so the
stage raises `TypeError` on the first file of every non-empty selection
(the empty-map error return is reachable only for an empty selection,
which the stage before rules out). -/
theorem fetch_stage_type_error :
    (∀ (owner repo p : String) (ps : List String),
      fetch_stage owner repo (p :: ps) =
        Except.error ⟨"TypeError", "get_file_content() got an unexpected keyword argument file_path"⟩) ∧
    fetch_stage "o" "r" [] =
      Except.ok (Sum.inl (.errorResponse 400 "NO_FILE_CONTENT_FETCHED")) :=
  ⟨fun _ _ _ _ => rfl, rfl⟩

/-- Content string of 100,001 characters, one over the default cap. -/
def bigText : String := String.mk (List.replicate 100001 'a')

/-- C10: `get_file_content` does return a 200 response with
`skipped = true`, reason `FILE_TOO_LARGE` and no content for text longer
than the 100,000-character default cap (itself below the 500,000-byte
scoring cap), and the response-processing logic of handler.py lines
258-264 would leave such a file out of the content map — but the
orchestrator never gets that far, because its call to `get_file_content`
itself raises `TypeError` (wrong keyword `file_path`), so the claimed
exclusion is never performed on any actual run. -/
theorem file_too_large_skip_and_fetch_crash :
    GET_FILE_CONTENT_DEFAULT_MAX_SIZE < 500000 ∧
    bigText.length = 100001 ∧
    get_file_content "big.py" 200 bigText GET_FILE_CONTENT_DEFAULT_MAX_SIZE =
      ⟨200, none, some ⟨"big.py", none, bigText.length, true, some "FILE_TOO_LARGE"⟩⟩ ∧
    process_content_response [] "big.py"
      (get_file_content "big.py" 200 bigText GET_FILE_CONTENT_DEFAULT_MAX_SIZE) =
      Except.ok [] ∧
    fetch_stage "o" "r" ["big.py"] =
      Except.error ⟨"TypeError", "get_file_content() got an unexpected keyword argument file_path"⟩ := by
  have hlen : bigText.length = 100001 := by
    unfold bigText
    rw [String.length_mk, List.length_replicate]
  have hresp : get_file_content "big.py" 200 bigText GET_FILE_CONTENT_DEFAULT_MAX_SIZE =
      ⟨200, none, some ⟨"big.py", none, bigText.length, true, some "FILE_TOO_LARGE"⟩⟩ := by
    unfold get_file_content
    rw [if_neg (by norm_num)]
    rw [if_pos (by rw [hlen]; norm_num [GET_FILE_CONTENT_DEFAULT_MAX_SIZE])]
    rfl
  refine ⟨by norm_num [GET_FILE_CONTENT_DEFAULT_MAX_SIZE], hlen, hresp, ?_, rfl⟩
  rw [hresp]
  rfl
